/-
Verification of the key-deployment utility in src/ssh-copy-id.c.

The C program is shallowly embedded: C strings become `List Char`, the
fixed-size C buffers become explicit `List.take` truncations at the
buffer capacities from the source (256-byte user/host fields, 4096-byte
path buffers, 65536-byte key buffers), and the external secure-shell
client is modeled by an environment record that supplies the results the
subprocess calls would produce (exit statuses and captured output).
Every definition follows the corresponding C function line by line; the
few spec-worded definitions are marked as such in their doc comments.
-/
import Mathlib

namespace SshCopyId

/-- C strings are modeled as lists of characters (the bytes up to the NUL). -/
abbrev Str := List Char

/-- Whitespace test used by trim_string (ssh-copy-id.c lines 72, 84):
space, tab, newline, carriage return. -/
def is_ws (c : Char) : Bool := c == ' ' || c == '\t' || c == '\n' || c == '\r'

/-- trim_string (lines 67-92): drop leading and trailing whitespace. -/
def trim_string (s : Str) : Str :=
  ((s.dropWhile is_ws).reverse.dropWhile is_ws).reverse

/-- Test whether `nee` is a leading segment of `hay` (the successful-match
condition of C strncmp/strstr at one position). -/
def prefix_of : Str → Str → Bool
  | [], _ => true
  | _ :: _, [] => false
  | d :: nee, c :: hay => (d == c) && prefix_of nee hay

/-- C strstr(hay, needle) viewed as a Boolean: does `needle` occur as a
contiguous substring of `hay` (the empty needle always matches). -/
def has_sub : Str → Str → Bool
  | [], needle => prefix_of needle []
  | c :: rest, needle => prefix_of needle (c :: rest) || has_sub rest needle

/-- The Options structure (lines 22-33).  Field capacities (user/host 256,
paths 4096, ssh_options 1024) are enforced at the points the C code
copies into them. -/
structure Options where
  user : Str
  host : Str
  port : Int
  identity_file : Str
  key_file : Str
  force : Bool
  dry_run : Bool
  quiet : Bool
  ssh_options : Str
  ssh_config : Str
  deriving DecidableEq

/-- The zeroed Options that parse_args starts from (lines 325-327):
memset to zero, then port set to 22. -/
def Options.init : Options :=
  { user := [], host := [], port := 22, identity_file := [], key_file := [],
    force := false, dry_run := false, quiet := false,
    ssh_options := [], ssh_config := [] }

/-- C strchr(target, at-sign) as a splitter: the part before the first
at-sign and the part after it, or none when the character is absent. -/
def strchrSplit : Str → Option (Str × Str)
  | [] => none
  | c :: rest =>
    if c = '@' then some ([], rest)
    else
      match strchrSplit rest with
      | some (u, h) => some (c :: u, h)
      | none => none

/-- parse_target (lines 114-139).  `username` is getenv of the USERNAME
variable.  The user and host fields are 256-byte buffers, hence the
take 255 truncations performed by the strncpy calls. -/
def parse_target (target : Str) (username : Option Str) (opts : Options) : Options :=
  match strchrSplit target with
  | some (u, h) =>
      { opts with user := u.take 255, host := h.take 255 }
  | none =>
      let u := match username with
               | some un => un.take 255
               | none => "user".toList
      { opts with user := u, host := target.take 255 }

/-- The flag-precedence part of get_public_key_path (lines 145-156):
explicit key file, else identity file with ".pub" appended unless already
CONTAINED (the C code tests strstr(key_path, ".pub") - substring
containment, not an end-of-string suffix test), else the home default.
The output buffer in every caller is 4096 bytes, hence the take 4095
truncations of strncpy/snprintf and the bounded strncat of ".pub". -/
def base_key_path (opts : Options) (home : Option Str) : Str :=
  if opts.key_file ≠ [] then opts.key_file.take 4095
  else if opts.identity_file ≠ [] then
    if has_sub (opts.identity_file.take 4095) ".pub".toList then
      opts.identity_file.take 4095
    else
      opts.identity_file.take 4095 ++
        (".pub".toList.take (4096 - (opts.identity_file.take 4095).length - 1))
  else ((home.getD ".".toList) ++ "\\.ssh\\id_rsa.pub".toList).take 4095

/-- The leading-tilde expansion of get_public_key_path (lines 158-163). -/
def tilde_expand (kp : Str) (home : Option Str) : Str :=
  if kp.head? = some '~' then ((home.getD []) ++ kp.tail).take 4095 else kp

/-- get_public_key_path (lines 142-166).  `home` is getenv of USERPROFILE. -/
def get_public_key_path (opts : Options) (home : Option Str) : Str :=
  tilde_expand (base_key_path opts home) home

/-- The escaping loop of copy_key_to_server (lines 227-245).  `remaining`
counts the free bytes left in the 65536-byte escaped_key buffer (starting
at 65535); the loop runs while input remains and remaining exceeds one,
replaces each single quote by the four characters quote backslash quote
quote when at least five bytes remain (silently dropping the quote
otherwise), and copies every other character unchanged. -/
def escape_loop : Str → Nat → Str
  | [], _ => []
  | c :: src, remaining =>
    if 1 < remaining then
      if c = '\'' then
        if 5 ≤ remaining then
          '\'' :: '\\' :: '\'' :: '\'' :: escape_loop src (remaining - 4)
        else escape_loop src remaining
      else c :: escape_loop src (remaining - 1)
    else []

/-- The shell escaping of the key as performed by copy_key_to_server:
the loop applied with the initial budget of the escaped_key buffer. -/
def escape_key (key : Str) : Str := escape_loop key 65535

/-- Number of output bytes the escaping loop wants to write: four per
single quote and one per other character. -/
def esc_cost : Str → Nat
  | [] => 0
  | c :: rest => (if c = '\'' then 4 else 1) + esc_cost rest

/-- Modelled from the spec words (section 4.3): escape each literal single
quote as the four-character sequence that closes the quoted string,
inserts an escaped quote, and reopens quoting; leave every other
character unchanged.  Compared against `escape_key` for refinement. -/
def escSpec : Str → Str
  | [] => []
  | c :: rest =>
    if c = '\'' then '\'' :: '\\' :: '\'' :: '\'' :: escSpec rest
    else c :: escSpec rest

/-- POSIX shell quote removal over one word, as the remote shell performs
it on the argument of echo: the Boolean tracks whether the scanner is
inside single quotes.  Inside single quotes every character up to the
closing quote is literal; outside, a backslash makes the next character
literal and a single quote opens a quoted run. -/
def sh_unquote : Str → Bool → Str
  | [], _ => []
  | '\'' :: rest, true => sh_unquote rest false
  | c :: rest, true => c :: sh_unquote rest true
  | '\'' :: rest, false => sh_unquote rest true
  | '\\' :: [], false => []
  | '\\' :: d :: rest2, false => d :: sh_unquote rest2 false
  | c :: rest, false => c :: sh_unquote rest false

theorem escape_loop_eq_spec : ∀ (k : Str) (r : Nat), esc_cost k < r → escape_loop k r = escSpec k
  | [], _, _ => rfl
  | c :: rest, r, hr => by
    have hcost : (if c = '\'' then 4 else 1) + esc_cost rest < r := hr
    by_cases hc : c = '\''
    · rw [if_pos hc] at hcost
      have h1 : 1 < r := by omega
      have h5 : 5 ≤ r := by omega
      show escape_loop (c :: rest) r = escSpec (c :: rest)
      simp only [escape_loop, escSpec, if_pos h1, if_pos hc, if_pos h5]
      rw [escape_loop_eq_spec rest (r - 4) (by omega)]
    · rw [if_neg hc] at hcost
      have h1 : 1 < r := by omega
      show escape_loop (c :: rest) r = escSpec (c :: rest)
      simp only [escape_loop, escSpec, if_pos h1, if_neg hc]
      rw [escape_loop_eq_spec rest (r - 1) (by omega)]

theorem sh_unquote_escSpec (k : Str) : sh_unquote (escSpec k ++ ['\'']) true = k := by
  induction k with
  | nil => simp [escSpec, sh_unquote]
  | cons c rest ih =>
    by_cases hc : c = '\''
    · subst hc
      simp only [escSpec, if_pos rfl, List.cons_append]
      simp [sh_unquote, ih]
    · simp only [escSpec, if_neg hc, List.cons_append]
      simp [sh_unquote, hc, ih]

theorem prefix_of_append (k b : Str) : prefix_of k (k ++ b) = true := by
  induction k with
  | nil => rfl
  | cons c t ih => simp [prefix_of, ih]

theorem has_sub_of_front (hay k : Str) (h : prefix_of k hay = true) :
    has_sub hay k = true := by
  cases hay with
  | nil => exact h
  | cons c rest => simp [has_sub, h]

theorem has_sub_append_left (a hay k : Str) (h : has_sub hay k = true) :
    has_sub (a ++ hay) k = true := by
  induction a with
  | nil => exact h
  | cons c t ih => simp [has_sub, ih]

theorem has_sub_sandwich (a k b : Str) : has_sub (a ++ (k ++ b)) k = true :=
  has_sub_append_left a _ k (has_sub_of_front _ k (prefix_of_append k b))

theorem strchrSplit_eq_none (t : Str) (h : '@' ∉ t) : strchrSplit t = none := by
  induction t with
  | nil => rfl
  | cons c rest ih =>
    have hc : ¬(c = '@') := fun he => h (he ▸ List.mem_cons_self c rest)
    have hr : '@' ∉ rest := fun hm => h (List.mem_cons_of_mem c hm)
    simp [strchrSplit, hc, ih hr]

theorem strchrSplit_append (u h : Str) (hu : '@' ∉ u) :
    strchrSplit (u ++ '@' :: h) = some (u, h) := by
  induction u with
  | nil => simp [strchrSplit]
  | cons c t ih =>
    have hc : ¬(c = '@') := fun he => hu (he ▸ List.mem_cons_self c t)
    have ht : '@' ∉ t := fun hm => hu (List.mem_cons_of_mem c hm)
    simp [strchrSplit, hc, ih ht]

/-- Message severity: printf to stdout is informational, fprintf to stderr
is an error report. -/
inductive Level where
  | info
  | err
  deriving DecidableEq

/-- One line of console output. -/
structure Msg where
  level : Level
  text : Str
  deriving DecidableEq

/-- Informational message from a string literal. -/
def infoM (s : String) : Msg := ⟨Level.info, s.toList⟩

/-- Error message from a string literal. -/
def errM (s : String) : Msg := ⟨Level.err, s.toList⟩

/-- State of the remote host that this tool can observe or change:
the content of the authorized-keys file (absent file read as empty, since
the read redirects errors away) and whether the key directory has been
created with owner-only permissions. -/
structure Remote where
  keys : Str
  dir_setup : Bool
  deriving DecidableEq

/-- The remote operations, each one invocation of the external ssh client:
the directory setup compound command, the authorized-keys read, the
append compound command (carrying the text that ends up appended), the
plain connectivity test, and the post-copy keyed connectivity test. -/
inductive ROp where
  | mkdirSsh
  | readKeys
  | appendKey (line : Str)
  | testExit
  | testWithKey
  deriving DecidableEq

/-- The text the append command adds to the remote file: the remote shell
removes the quoting from the single-quoted escaped key, and echo appends
one newline. -/
def appended_line (key_content : Str) : Str :=
  sh_unquote ('\'' :: (escape_key key_content ++ ['\''])) false ++ ['\n']

/-- Result of copy_key_to_server: the remote state afterwards, the remote
operations issued in order, the console output, the C return value, and
whether the existing-key branch was taken. -/
structure CopyResult where
  remote : Remote
  ops : List ROp
  out : List Msg
  ret : Int
  already : Bool
  deriving DecidableEq

/-- copy_key_to_server (lines 221-290).  The subprocess calls are modeled
against the remote state: the directory command always runs (its exit
status is ignored by the C code), the popen of the key read is assumed to
succeed and returns at most 65535 bytes of the remote file, and
`append_ok` is the exit status of the remote append command (a failed
append is modeled as leaving the remote file unchanged).  The progress
printf calls here are unconditional in the C code - they do not consult
opts.quiet. -/
def copy_key_to_server (opts : Options) (key_content : Str) (r : Remote)
    (append_ok : Bool) : CopyResult :=
  if opts.force then
    { remote := if append_ok then
        { keys := r.keys ++ appended_line key_content, dir_setup := true }
      else { r with dir_setup := true },
      ops := [ROp.mkdirSsh, ROp.appendKey (appended_line key_content)],
      out := [infoM "Creating ~/.ssh directory...", infoM "Adding key to authorized_keys..."],
      ret := if append_ok then 0 else 1,
      already := false }
  else if has_sub (r.keys.take 65535) key_content then
    { remote := { r with dir_setup := true },
      ops := [ROp.mkdirSsh, ROp.readKeys],
      out := [infoM "Creating ~/.ssh directory...", infoM "Key already exists on server"],
      ret := 0,
      already := true }
  else
    { remote := if append_ok then
        { keys := r.keys ++ appended_line key_content, dir_setup := true }
      else { r with dir_setup := true },
      ops := [ROp.mkdirSsh, ROp.readKeys, ROp.appendKey (appended_line key_content)],
      out := [infoM "Creating ~/.ssh directory...", infoM "Adding key to authorized_keys..."],
      ret := if append_ok then 0 else 1,
      already := false }

/-- atoi as used for the port flag: skip leading whitespace, optional
sign, then decimal digits up to the first non-digit. -/
def atoiDigits : Str → Int → Int
  | [], acc => acc
  | c :: rest, acc =>
    if '0' ≤ c ∧ c ≤ '9' then atoiDigits rest (acc * 10 + (c.toNat - 48 : Int))
    else acc

/-- atoi of the C library, to the extent the port option needs it. -/
def atoi (s : Str) : Int :=
  match s.dropWhile is_ws with
  | '-' :: rest => - atoiDigits rest 0
  | '+' :: rest => atoiDigits rest 0
  | s1 => atoiDigits s1 0

/-- print_help output (lines 95-111), abbreviated to its usage line; only
its presence and info level matter to the claims. -/
def help_msgs : List Msg :=
  [infoM "Usage: ssh-copy-id [options] [user@]host"]

/-- Result of parse_args: the help-and-exit path (exit code 0), the
failure path (return -1, so main exits 1), or the parsed options. -/
inductive ParseOut where
  | helpShown (out : List Msg)
  | failed (out : List Msg)
  | ok (opts : Options) (out : List Msg)
  deriving DecidableEq

/-- The check after the argument loop (lines 374-378). -/
def parse_args_done (tf : Bool) (opts : Options) (out : List Msg) : ParseOut :=
  if tf = false ∧ opts.host = [] then
    ParseOut.failed (out ++ [errM "No host specified. Usage: ssh-copy-id user@host"] ++ help_msgs)
  else ParseOut.ok opts out

/-- The argument loop of parse_args (lines 329-372).  A value-taking flag
given as the last argument is ignored, as the C bounds check does.  The
buffer truncations match the Options field sizes. -/
def parse_args_loop (username : Option Str) :
    List Str → Bool → Options → List Msg → ParseOut
  | [], tf, opts, out => parse_args_done tf opts out
  | a :: rest, tf, opts, out =>
    if a = "-h".toList ∨ a = "--help".toList then
      ParseOut.helpShown (out ++ help_msgs)
    else if a = "-i".toList ∨ a = "--identity_file".toList then
      match rest with
      | v :: rest2 =>
          parse_args_loop username rest2 tf { opts with identity_file := v.take 4095 } out
      | [] => parse_args_done tf opts out
    else if a = "-p".toList ∨ a = "--port".toList then
      match rest with
      | v :: rest2 => parse_args_loop username rest2 tf { opts with port := atoi v } out
      | [] => parse_args_done tf opts out
    else if a = "-f".toList ∨ a = "--force".toList then
      parse_args_loop username rest tf { opts with force := true } out
    else if a = "-n".toList ∨ a = "--dry_run".toList then
      parse_args_loop username rest tf { opts with dry_run := true } out
    else if a = "-q".toList ∨ a = "--quiet".toList then
      parse_args_loop username rest tf { opts with quiet := true } out
    else if a = "-o".toList ∨ a = "--ssh_options".toList then
      match rest with
      | v :: rest2 =>
          parse_args_loop username rest2 tf { opts with ssh_options := v.take 1023 } out
      | [] => parse_args_done tf opts out
    else if a = "-F".toList ∨ a = "--ssh_config".toList then
      match rest with
      | v :: rest2 =>
          parse_args_loop username rest2 tf { opts with ssh_config := v.take 4095 } out
      | [] => parse_args_done tf opts out
    else if a.head? ≠ some '-' ∧ tf = false then
      parse_args_loop username rest true (parse_target a username opts) out
    else
      ParseOut.failed (out ++ [⟨Level.err, "Unknown option: ".toList ++ a⟩] ++ help_msgs)

/-- parse_args (lines 321-381) on the arguments after the program name. -/
def parse_args (username : Option Str) (args : List Str) : ParseOut :=
  parse_args_loop username args false Options.init []

/-- read_public_key (lines 169-186): none when the file cannot be opened
or holds zero bytes; otherwise the first 65535 bytes, trimmed. -/
def read_public_key (rf : Str → Option Str) (p : Str) : Option Str :=
  match rf p with
  | none => none
  | some content =>
    if (content.take 65535).length = 0 then none
    else some (trim_string (content.take 65535))

/-- The private-key path computed in main (lines 429-434): the key path
truncated at the FIRST occurrence of ".pub" (strstr plus a written NUL),
not at a trailing suffix. -/
def strip_at_pub : Str → Str
  | [] => []
  | c :: rest =>
    if prefix_of ".pub".toList (c :: rest) then []
    else c :: strip_at_pub rest

/-- Everything outside the program that main consults: the two environment
variables, whether a local ssh client is on the search path, the local
filesystem (file contents for fopen and existence for stat), the remote
state, and the exit statuses of the three kinds of remote calls. -/
structure Env where
  username : Option Str
  userprofile : Option Str
  ssh_installed : Bool
  read_file : Str → Option Str
  file_exists_at : Str → Bool
  remote : Remote
  connect_ok : Bool
  append_ok : Bool
  key_test_ok : Bool

/-- Which branch of main produced the exit: one tag per return site. -/
inductive Outcome where
  | helpShown
  | parseError
  | noClient
  | dryRun
  | keyMissing
  | connectFailed
  | alreadyPresent
  | copied
  | appendFailed
  deriving DecidableEq

/-- Result of one whole invocation: process exit code, the branch taken,
console output in order, remote operations in order, final remote state. -/
structure MainResult where
  exit_code : Int
  outcome : Outcome
  out : List Msg
  ops : List ROp
  remote : Remote

/-- main (lines 383-479), branch by branch: parse, local client check,
key path resolution, the progress block gated on quiet, the dry-run
return, the key read with the private-key hint on failure, the
connectivity test, the copy, and the quiet-gated success block with its
advisory keyed connection test. -/
def mainRun (env : Env) (args : List Str) : MainResult :=
  match parse_args env.username args with
  | ParseOut.helpShown out => ⟨0, Outcome.helpShown, out, [], env.remote⟩
  | ParseOut.failed out => ⟨1, Outcome.parseError, out, [], env.remote⟩
  | ParseOut.ok opts out0 =>
    if env.ssh_installed = false then
      ⟨1, Outcome.noClient,
       out0 ++ [errM "SSH client not found. Please install OpenSSH for Windows."],
       [], env.remote⟩
    else
      if opts.dry_run then
        ⟨0, Outcome.dryRun,
         (out0 ++ (if opts.quiet then [] else
            [⟨Level.info, "Copying key: ".toList ++ get_public_key_path opts env.userprofile⟩,
             ⟨Level.info, "To server: ".toList ++ opts.user ++ '@' :: opts.host ++
               (if opts.port > 0 ∧ opts.port ≠ 22 then ':' :: (toString opts.port).toList else [])⟩]))
           ++ [infoM "[DRY RUN] Key would be added to ~/.ssh/authorized_keys"],
         [], env.remote⟩
      else
        match read_public_key env.read_file (get_public_key_path opts env.userprofile) with
        | none =>
          ⟨1, Outcome.keyMissing,
           (out0 ++ (if opts.quiet then [] else
              [⟨Level.info, "Copying key: ".toList ++ get_public_key_path opts env.userprofile⟩,
               ⟨Level.info, "To server: ".toList ++ opts.user ++ '@' :: opts.host ++
                 (if opts.port > 0 ∧ opts.port ≠ 22 then ':' :: (toString opts.port).toList else [])⟩]))
             ++ [⟨Level.err, "Public key not found: ".toList ++ get_public_key_path opts env.userprofile⟩]
             ++ (if env.file_exists_at (strip_at_pub (get_public_key_path opts env.userprofile)) then
                  [⟨Level.err, "Private key found: ".toList ++ strip_at_pub (get_public_key_path opts env.userprofile)⟩,
                   ⟨Level.err, "Generate public key: ssh-keygen -y -f ".toList ++
                     strip_at_pub (get_public_key_path opts env.userprofile) ++ " > ".toList ++
                     get_public_key_path opts env.userprofile⟩]
                 else []),
           [], env.remote⟩
        | some key_content =>
          if env.connect_ok = false then
            ⟨1, Outcome.connectFailed,
             (out0 ++ (if opts.quiet then [] else
                [⟨Level.info, "Copying key: ".toList ++ get_public_key_path opts env.userprofile⟩,
                 ⟨Level.info, "To server: ".toList ++ opts.user ++ '@' :: opts.host ++
                   (if opts.port > 0 ∧ opts.port ≠ 22 then ':' :: (toString opts.port).toList else [])⟩,
                 infoM "Testing connection..."]))
               ++ [errM "Failed to connect to server. Check login credentials."],
             [ROp.testExit], env.remote⟩
          else
            if (copy_key_to_server opts key_content env.remote env.append_ok).ret = 0 then
              ⟨0,
               (if (copy_key_to_server opts key_content env.remote env.append_ok).already
                then Outcome.alreadyPresent else Outcome.copied),
               (out0 ++ (if opts.quiet then [] else
                  [⟨Level.info, "Copying key: ".toList ++ get_public_key_path opts env.userprofile⟩,
                   ⟨Level.info, "To server: ".toList ++ opts.user ++ '@' :: opts.host ++
                     (if opts.port > 0 ∧ opts.port ≠ 22 then ':' :: (toString opts.port).toList else [])⟩,
                   infoM "Testing connection..."]))
                 ++ (copy_key_to_server opts key_content env.remote env.append_ok).out
                 ++ (if opts.quiet then [] else
                      [infoM "Key copied successfully!", infoM "Testing connection with key..."]
                        ++ (if env.key_test_ok then [infoM "Connection with key works!"]
                            else [infoM "Connection with key failed."])),
               ROp.testExit :: (copy_key_to_server opts key_content env.remote env.append_ok).ops
                 ++ (if opts.quiet then [] else [ROp.testWithKey]),
               (copy_key_to_server opts key_content env.remote env.append_ok).remote⟩
            else
              ⟨1, Outcome.appendFailed,
               (out0 ++ (if opts.quiet then [] else
                  [⟨Level.info, "Copying key: ".toList ++ get_public_key_path opts env.userprofile⟩,
                   ⟨Level.info, "To server: ".toList ++ opts.user ++ '@' :: opts.host ++
                     (if opts.port > 0 ∧ opts.port ≠ 22 then ':' :: (toString opts.port).toList else [])⟩,
                   infoM "Testing connection..."]))
                 ++ (copy_key_to_server opts key_content env.remote env.append_ok).out
                 ++ [errM "Error copying key"],
               ROp.testExit :: (copy_key_to_server opts key_content env.remote env.append_ok).ops,
               (copy_key_to_server opts key_content env.remote env.append_ok).remote⟩

theorem appended_line_eq (k : Str) (h : esc_cost k < 65535) :
    appended_line k = k ++ ['\n'] := by
  unfold appended_line escape_key
  rw [escape_loop_eq_spec k 65535 h]
  have hstep : sh_unquote ('\'' :: (escSpec k ++ ['\''])) false
      = sh_unquote (escSpec k ++ ['\'']) true := by
    simp [sh_unquote]
  rw [hstep, sh_unquote_escSpec]

theorem copy_noforce_present (opts : Options) (key : Str) (r : Remote) (aok : Bool)
    (hf : opts.force = false) (hs : has_sub (r.keys.take 65535) key = true) :
    copy_key_to_server opts key r aok
      = { remote := { r with dir_setup := true },
          ops := [ROp.mkdirSsh, ROp.readKeys],
          out := [infoM "Creating ~/.ssh directory...", infoM "Key already exists on server"],
          ret := 0, already := true } := by
  unfold copy_key_to_server
  rw [if_neg (by rw [hf]; decide), if_pos hs]

theorem copy_noforce_absent (opts : Options) (key : Str) (r : Remote)
    (hf : opts.force = false) (hs : ¬ has_sub (r.keys.take 65535) key = true) :
    copy_key_to_server opts key r true
      = { remote := { keys := r.keys ++ appended_line key, dir_setup := true },
          ops := [ROp.mkdirSsh, ROp.readKeys, ROp.appendKey (appended_line key)],
          out := [infoM "Creating ~/.ssh directory...", infoM "Adding key to authorized_keys..."],
          ret := 0, already := false } := by
  unfold copy_key_to_server
  rw [if_neg (by rw [hf]; decide), if_neg hs]
  rfl

theorem copy_force_ok (opts : Options) (key : Str) (r : Remote)
    (hf : opts.force = true) :
    copy_key_to_server opts key r true
      = { remote := { keys := r.keys ++ appended_line key, dir_setup := true },
          ops := [ROp.mkdirSsh, ROp.appendKey (appended_line key)],
          out := [infoM "Creating ~/.ssh directory...", infoM "Adding key to authorized_keys..."],
          ret := 0, already := false } := by
  unfold copy_key_to_server
  rw [if_pos hf]
  rfl

/-- C1: for every key whose escaped form fits the 65536-byte escape
buffer, the shell-escaping step of copy_key_to_server replaces each
literal single quote by the four-character sequence quote backslash quote
quote and leaves every other character unchanged (escape_key agrees with
the spec-worded escSpec), and the remote shell unquoting of the
single-quoted escaped key recovers exactly the original key text, so the
line appended remotely is the original trimmed key, quotes included. -/
theorem C1_escape_roundtrip (key : Str) (hfit : esc_cost key < 65535) :
    escape_key key = escSpec key ∧
    sh_unquote ('\'' :: (escape_key key ++ ['\''])) false = key := by
  have he : escape_key key = escSpec key := escape_loop_eq_spec key 65535 hfit
  refine ⟨he, ?_⟩
  rw [he]
  have hstep : sh_unquote ('\'' :: (escSpec key ++ ['\''])) false
      = sh_unquote (escSpec key ++ ['\'']) true := by
    simp [sh_unquote]
  rw [hstep, sh_unquote_escSpec]

/-- Witness for C1 at a concrete key containing a single quote. -/
theorem C1_escape_roundtrip_witness :
    escape_key ("ab".toList ++ '\'' :: "cd".toList)
      = escSpec ("ab".toList ++ '\'' :: "cd".toList) ∧
    sh_unquote ('\'' :: (escape_key ("ab".toList ++ '\'' :: "cd".toList) ++ ['\''])) false
      = ("ab".toList ++ '\'' :: "cd".toList) :=
  C1_escape_roundtrip ("ab".toList ++ '\'' :: "cd".toList) (by decide)

/-- C4 counterexample: the identity file "a.pubx" does not end in ".pub",
yet get_public_key_path returns it unchanged instead of appending one
".pub" suffix as the claim states, because the C code tests substring
containment with strstr rather than a suffix. -/
theorem C4_counterexample :
    get_public_key_path { Options.init with identity_file := "a.pubx".toList } none
      = "a.pubx".toList ∧
    get_public_key_path { Options.init with identity_file := "a.pubx".toList } none
      ≠ "a.pubx".toList ++ ".pub".toList := by
  constructor
  · decide
  · decide

/-- C4 amended: with the key-file field unset (parse_args never sets it),
for a non-empty identity-file path that fits the 4096-byte path buffer
with room for the suffix and does not begin with a tilde: if the path
does not CONTAIN ".pub" anywhere, exactly one ".pub" is appended; if it
contains ".pub" anywhere (in particular when it ends in ".pub"), the
path is returned unchanged. -/
theorem C4_pub_suffix (opts : Options) (home : Option Str)
    (hkf : opts.key_file = [])
    (hne : opts.identity_file ≠ [])
    (hlen : opts.identity_file.length ≤ 4091)
    (hnt : opts.identity_file.head? ≠ some '~') :
    (has_sub opts.identity_file ".pub".toList = false →
       get_public_key_path opts home = opts.identity_file ++ ".pub".toList) ∧
    (has_sub opts.identity_file ".pub".toList = true →
       get_public_key_path opts home = opts.identity_file) := by
  have htake : opts.identity_file.take 4095 = opts.identity_file :=
    List.take_of_length_le (by omega)
  have hkfn : ¬(opts.key_file ≠ []) := by simp [hkf]
  have h4 : (".pub".toList).length = 4 := by decide
  constructor
  · intro hno
    have hbase : base_key_path opts home = opts.identity_file ++ ".pub".toList := by
      unfold base_key_path
      rw [if_neg hkfn, if_pos hne, htake, if_neg (by rw [hno]; decide)]
      congr 1
      refine List.take_of_length_le ?_
      rw [h4]
      omega
    have hhead : (opts.identity_file ++ ".pub".toList).head? ≠ some '~' := by
      rcases hif : opts.identity_file with _ | ⟨c, t⟩
      · exact absurd hif hne
      · rw [hif] at hnt
        simpa using hnt
    unfold get_public_key_path tilde_expand
    rw [hbase, if_neg hhead]
  · intro hyes
    have hbase : base_key_path opts home = opts.identity_file := by
      unfold base_key_path
      rw [if_neg hkfn, if_pos hne, htake, if_pos hyes]
    unfold get_public_key_path tilde_expand
    rw [hbase, if_neg hnt]

/-- Witness for C4 at "id_rsa" (gets the suffix) and "k.pub" (kept). -/
theorem C4_pub_suffix_witness :
    get_public_key_path { Options.init with identity_file := "id_rsa".toList } none
      = "id_rsa".toList ++ ".pub".toList ∧
    get_public_key_path { Options.init with identity_file := "k.pub".toList } none
      = "k.pub".toList := by
  constructor
  · exact (C4_pub_suffix { Options.init with identity_file := "id_rsa".toList } none
      rfl (by decide) (by decide) (by decide)).1 (by decide)
  · exact (C4_pub_suffix { Options.init with identity_file := "k.pub".toList } none
      rfl (by decide) (by decide) (by decide)).2 (by decide)

/-- C8: parse_target splits on the first at-sign, the part before it
becoming the user and the part after it the host (for parts within the
256-byte field bounds), and a target without an at-sign becomes the host
with the user taken from the USERNAME environment variable when set. -/
theorem C8_parse_target_split (username : Option Str) (opts : Options) :
    (∀ u h : Str, '@' ∉ u → u.length ≤ 255 → h.length ≤ 255 →
       parse_target (u ++ '@' :: h) username opts
         = { opts with user := u, host := h }) ∧
    (∀ t un : Str, '@' ∉ t → t.length ≤ 255 → username = some un → un.length ≤ 255 →
       parse_target t username opts = { opts with user := un, host := t }) := by
  constructor
  · intro u h hu hul hhl
    unfold parse_target
    rw [strchrSplit_append u h hu]
    show { opts with user := u.take 255, host := h.take 255 }
        = { opts with user := u, host := h }
    rw [List.take_of_length_le hul, List.take_of_length_le hhl]
  · intro t un hna htl hus hul
    unfold parse_target
    rw [strchrSplit_eq_none t hna, hus]
    show { opts with user := un.take 255, host := t.take 255 }
        = { opts with user := un, host := t }
    rw [List.take_of_length_le hul, List.take_of_length_le htl]

/-- Witness for C8 at "alice@box" and at "box" with USERNAME set. -/
theorem C8_parse_target_split_witness :
    parse_target "alice@box".toList none Options.init
      = { Options.init with user := "alice".toList, host := "box".toList } ∧
    parse_target "box".toList (some "carol".toList) Options.init
      = { Options.init with user := "carol".toList, host := "box".toList } := by
  constructor
  · have h := (C8_parse_target_split none Options.init).1 "alice".toList "box".toList
      (by decide) (by decide) (by decide)
    have he : "alice@box".toList = "alice".toList ++ '@' :: "box".toList := by decide
    rw [he, h]
  · exact (C8_parse_target_split (some "carol".toList) Options.init).2
      "box".toList "carol".toList (by decide) (by decide) rfl (by decide)

/-- C9: every call of copy_key_to_server issues the directory-setup
command first, before the existing-key read, and leaves the remote
directory created with tightened permissions; in particular the
already-present no-op run has still issued mkdir and mutated the
directory state of the remote. -/
theorem C9_mkdir_before_check (opts : Options) (key : Str) (r : Remote) (aok : Bool) :
    (copy_key_to_server opts key r aok).ops.head? = some ROp.mkdirSsh ∧
    (copy_key_to_server opts key r aok).remote.dir_setup = true ∧
    (opts.force = false → has_sub (r.keys.take 65535) key = true →
       (copy_key_to_server opts key r aok).ops = [ROp.mkdirSsh, ROp.readKeys] ∧
       (copy_key_to_server opts key r aok).remote = { r with dir_setup := true }) := by
  unfold copy_key_to_server
  by_cases hf : opts.force = true
  · rw [if_pos hf]
    refine ⟨rfl, ?_, ?_⟩
    · by_cases ha : aok = true
      · rw [if_pos ha]
      · rw [if_neg ha]
    · intro hff _
      rw [hff] at hf
      exact absurd hf (by decide)
  · rw [if_neg hf]
    by_cases hs : has_sub (r.keys.take 65535) key = true
    · rw [if_pos hs]
      exact ⟨rfl, rfl, fun _ _ => ⟨rfl, rfl⟩⟩
    · rw [if_neg hs]
      refine ⟨rfl, ?_, fun _ hsub => absurd hsub hs⟩
      by_cases ha : aok = true
      · rw [if_pos ha]
      · rw [if_neg ha]

/-- Witness for C9: an already-present run on a remote whose directory was
not yet set up still issues mkdir first and sets the directory up. -/
theorem C9_mkdir_before_check_witness :
    (copy_key_to_server Options.init "k".toList ⟨"k".toList, false⟩ true).ops
      = [ROp.mkdirSsh, ROp.readKeys] ∧
    (copy_key_to_server Options.init "k".toList ⟨"k".toList, false⟩ true).remote
      = ⟨"k".toList, true⟩ := by
  have h := (C9_mkdir_before_check Options.init "k".toList ⟨"k".toList, false⟩ true).2.2
    rfl (by decide)
  exact ⟨h.1, h.2⟩

/-- C10: a target without an at-sign, parsed with the USERNAME variable
unset, gets the literal fallback user name "user" rather than an empty
user or a failure. -/
theorem C10_default_user (t : Str) (opts : Options) (hna : '@' ∉ t) :
    (parse_target t none opts).user = "user".toList := by
  unfold parse_target
  rw [strchrSplit_eq_none t hna]

/-- Witness for C10 at the concrete target "box". -/
theorem C10_default_user_witness :
    (parse_target "box".toList none Options.init).user = "user".toList :=
  C10_default_user "box".toList Options.init (by decide)

/-- C2: against a cooperating remote (reads return the current file and
appends succeed), within the buffer bounds (escaped key fits the escape
buffer, file plus appended line fits the 65536-byte read buffer): with
force unset, after one deployment the fetched remote content contains the
trimmed key as a substring, so a second run issues no append command,
reports that the key already exists, returns 0 and leaves the file
unchanged - the key is appended at most once; with force set, the
presence check is skipped and each of the two runs issues an append, so
two runs append two lines. -/
theorem C2_idempotent_append (opts : Options) (key : Str) (r : Remote)
    (hfit : esc_cost key < 65535)
    (hlen : r.keys.length + (key.length + 1) ≤ 65535) :
    (opts.force = false →
       has_sub ((copy_key_to_server opts key r true).remote.keys.take 65535) key = true ∧
       (∀ l, ROp.appendKey l ∉
         (copy_key_to_server opts key (copy_key_to_server opts key r true).remote true).ops) ∧
       infoM "Key already exists on server"
         ∈ (copy_key_to_server opts key (copy_key_to_server opts key r true).remote true).out ∧
       (copy_key_to_server opts key (copy_key_to_server opts key r true).remote true).ret = 0 ∧
       (copy_key_to_server opts key (copy_key_to_server opts key r true).remote true).remote.keys
         = (copy_key_to_server opts key r true).remote.keys) ∧
    (opts.force = true →
       (copy_key_to_server opts key r true).ops
         = [ROp.mkdirSsh, ROp.appendKey (key ++ ['\n'])] ∧
       (copy_key_to_server opts key (copy_key_to_server opts key r true).remote true).ops
         = [ROp.mkdirSsh, ROp.appendKey (key ++ ['\n'])] ∧
       (copy_key_to_server opts key (copy_key_to_server opts key r true).remote true).remote.keys
         = r.keys ++ (key ++ ['\n']) ++ (key ++ ['\n'])) := by
  have hal : appended_line key = key ++ ['\n'] := appended_line_eq key hfit
  constructor
  · intro hf
    by_cases hs : has_sub (r.keys.take 65535) key = true
    · have h1 := copy_noforce_present opts key r true hf hs
      have h2 := copy_noforce_present opts key { r with dir_setup := true } true hf hs
      simp [h1, h2, hs]
    · have h1 := copy_noforce_absent opts key r hf hs
      rw [hal] at h1
      have htk : (r.keys ++ (key ++ ['\n'])).take 65535 = r.keys ++ (key ++ ['\n']) := by
        refine List.take_of_length_le ?_
        simp only [List.length_append, List.length_cons, List.length_nil]
        omega
      have hs2 : has_sub ((r.keys ++ (key ++ ['\n'])).take 65535) key = true := by
        rw [htk]
        exact has_sub_sandwich r.keys key ['\n']
      have h2 := copy_noforce_present opts key
        { keys := r.keys ++ (key ++ ['\n']), dir_setup := true } true hf hs2
      simp [h1, h2, hs2]
  · intro hf
    have h1 := copy_force_ok opts key r hf
    rw [hal] at h1
    have h2 := copy_force_ok opts key { keys := r.keys ++ (key ++ ['\n']), dir_setup := true } hf
    rw [hal] at h2
    simp [h1, h2]

/-- Witness for C2: a non-force second run on the remote produced by a
first run returns 0. -/
theorem C2_idempotent_append_witness :
    (copy_key_to_server Options.init "k1".toList
      (copy_key_to_server Options.init "k1".toList ⟨[], false⟩ true).remote true).ret = 0 := by
  have h := C2_idempotent_append Options.init "k1".toList ⟨[], false⟩ (by decide) (by decide)
  exact (h.1 rfl).2.2.2.1

/-- Environment for the C3 counterexample: dry run requested, host given,
every file readable, but no local ssh client on the search path. -/
def env_no_client : Env :=
  { username := none, userprofile := none, ssh_installed := false,
    read_file := fun _ => some "ssh-rsa AAAA test".toList,
    file_exists_at := fun _ => false,
    remote := { keys := [], dir_setup := false },
    connect_ok := true, append_ok := true, key_test_ok := true }

/-- C3 counterexample: a dry-run invocation with a determined host and a
key file readable at every path, with no local ssh client installed: the
claim asserts exit code 0 for every such dry run, but the client check
runs before the dry-run return, so the process exits 1 (no remote
operation is issued, as claimed). -/
theorem C3_counterexample :
    (mainRun env_no_client ["-n".toList, "box".toList]).exit_code = 1 ∧
    (mainRun env_no_client ["-n".toList, "box".toList]).ops = [] := by
  constructor
  · rfl
  · rfl

/-- C3 amended: provided additionally that a local ssh client is present,
a dry-run invocation with a determined host and a readable key file
issues no remote operation and exits 0 (force plays no role: the dry-run
return precedes every remote call). -/
theorem C3_dry_run_no_remote (env : Env) (args : List Str) (opts : Options) (out : List Msg)
    (hp : parse_args env.username args = ParseOut.ok opts out)
    (hdry : opts.dry_run = true)
    (hssh : env.ssh_installed = true)
    (_hread : env.read_file (get_public_key_path opts env.userprofile) ≠ none) :
    (mainRun env args).ops = [] ∧ (mainRun env args).exit_code = 0 := by
  unfold mainRun
  simp only [hp]
  rw [if_neg (by rw [hssh]; decide), if_pos hdry]
  exact ⟨rfl, rfl⟩

/-- Environment for the C3 witness: as env_no_client but with the client
installed. -/
def env_with_client : Env :=
  { username := none, userprofile := none, ssh_installed := true,
    read_file := fun _ => some "ssh-rsa AAAA test".toList,
    file_exists_at := fun _ => false,
    remote := { keys := [], dir_setup := false },
    connect_ok := true, append_ok := true, key_test_ok := true }

/-- Witness for the amended C3 at a concrete dry-run invocation. -/
theorem C3_dry_run_no_remote_witness :
    (mainRun env_with_client ["-n".toList, "box".toList]).ops = [] ∧
    (mainRun env_with_client ["-n".toList, "box".toList]).exit_code = 0 := by
  refine C3_dry_run_no_remote env_with_client ["-n".toList, "box".toList]
    { Options.init with dry_run := true, user := "user".toList, host := "box".toList }
    [] ?_ rfl rfl ?_
  · decide
  · intro h
    exact Option.noConfusion h

/-- Environment for the C5 theorem: quiet success path (client present,
key readable, remote reachable, key not yet present, append succeeds). -/
def env_quiet_success : Env :=
  { username := none, userprofile := none, ssh_installed := true,
    read_file := fun _ => some "ssh-rsa AAAA test".toList,
    file_exists_at := fun _ => false,
    remote := { keys := [], dir_setup := false },
    connect_ok := true, append_ok := true, key_test_ok := true }

/-- C5 (code bug): on a quiet success-path invocation main suppresses its
own progress output, but copy_key_to_server prints its progress messages
with plain printf, never consulting opts.quiet - so informational output
still appears with quiet set, contradicting the documented suppression
of all non-error output in quiet mode. -/
theorem C5_quiet_still_prints_info :
    (mainRun env_quiet_success ["-q".toList, "box".toList]).exit_code = 0 ∧
    (mainRun env_quiet_success ["-q".toList, "box".toList]).out
      = [infoM "Creating ~/.ssh directory...", infoM "Adding key to authorized_keys..."] := by
  constructor
  · rfl
  · rfl

/-- Environment for the C6 counterexample: no file is readable, only the
suffix-stripped sibling "k.pub" exists. -/
def env_sibling : Env :=
  { username := none, userprofile := none, ssh_installed := true,
    read_file := fun _ => none,
    file_exists_at := fun p => p == "k.pub".toList,
    remote := { keys := [], dir_setup := false },
    connect_ok := true, append_ok := true, key_test_ok := true }

/-- C6 counterexample: the resolved key path "k.pub.pub" cannot be read
and the sibling obtained by stripping the ".pub" SUFFIX, "k.pub", exists;
the claim then requires an error naming that private key plus a
generation hint, but the code truncates at the FIRST ".pub" occurrence,
checks "k" instead (absent), and prints only the not-found error. -/
theorem C6_counterexample :
    (mainRun env_sibling
        ["-q".toList, "-i".toList, "k.pub.pub".toList, "box".toList]).exit_code = 1 ∧
    (mainRun env_sibling
        ["-q".toList, "-i".toList, "k.pub.pub".toList, "box".toList]).out
      = [⟨Level.err, "Public key not found: ".toList ++ "k.pub.pub".toList⟩] := by
  constructor
  · rfl
  · rfl

/-- C6 amended: when the resolved public-key file cannot be read (in a
non-dry-run invocation with the client present) and the file at the key
path truncated at the FIRST ".pub" occurrence exists - for ordinary paths
whose only ".pub" is the final suffix this is exactly the suffix-stripped
sibling - the program prints errors naming that private key and a
suggested ssh-keygen generation command, exits 1, and issues no remote
call. -/
theorem C6_missing_key_hint (env : Env) (args : List Str) (opts : Options) (out : List Msg)
    (hp : parse_args env.username args = ParseOut.ok opts out)
    (hssh : env.ssh_installed = true)
    (hdry : opts.dry_run = false)
    (hread : read_public_key env.read_file (get_public_key_path opts env.userprofile) = none)
    (hpriv : env.file_exists_at (strip_at_pub (get_public_key_path opts env.userprofile)) = true) :
    (mainRun env args).exit_code = 1 ∧
    (mainRun env args).ops = [] ∧
    (⟨Level.err, "Private key found: ".toList
        ++ strip_at_pub (get_public_key_path opts env.userprofile)⟩ : Msg)
      ∈ (mainRun env args).out ∧
    (⟨Level.err, "Generate public key: ssh-keygen -y -f ".toList
        ++ strip_at_pub (get_public_key_path opts env.userprofile)
        ++ " > ".toList ++ get_public_key_path opts env.userprofile⟩ : Msg)
      ∈ (mainRun env args).out := by
  unfold mainRun
  simp only [hp]
  rw [if_neg (by rw [hssh]; decide), if_neg (by rw [hdry]; decide)]
  rw [hread]
  simp [hpriv]

/-- Environment for the C6 witness: the first-occurrence-stripped sibling
"k" exists. -/
def env_hint : Env :=
  { username := none, userprofile := none, ssh_installed := true,
    read_file := fun _ => none,
    file_exists_at := fun p => p == "k".toList,
    remote := { keys := [], dir_setup := false },
    connect_ok := true, append_ok := true, key_test_ok := true }

/-- The options parse_args yields for the C6 witness invocation. -/
def opts_hint : Options :=
  { Options.init with
    identity_file := "k.pub.pub".toList,
    user := "user".toList,
    host := "box".toList }

/-- Witness for the amended C6 at a concrete invocation. -/
theorem C6_missing_key_hint_witness :
    (mainRun env_hint ["-i".toList, "k.pub.pub".toList, "box".toList]).exit_code = 1 ∧
    (⟨Level.err, "Private key found: k".toList⟩ : Msg)
      ∈ (mainRun env_hint ["-i".toList, "k.pub.pub".toList, "box".toList]).out := by
  have h := C6_missing_key_hint env_hint ["-i".toList, "k.pub.pub".toList, "box".toList]
    opts_hint [] (by decide) rfl rfl (by decide) (by decide)
  refine ⟨h.1, ?_⟩
  have hm := h.2.2.1
  have hs : strip_at_pub (get_public_key_path opts_hint env_hint.userprofile)
      = "k".toList := by decide
  rw [hs] at hm
  have ht : "Private key found: ".toList ++ "k".toList = "Private key found: k".toList := by
    decide
  rw [ht] at hm
  exact hm

/-- C7: the process exit code is 0 exactly on the help, dry-run,
already-present and success outcomes, and 1 on every error outcome:
parse failure (missing host or unknown option), missing local ssh
client, missing or empty key file, failed connectivity test, failed
append. -/
theorem C7_exit_codes (env : Env) (args : List Str) :
    (mainRun env args).exit_code
      = (if (mainRun env args).outcome = Outcome.helpShown
            ∨ (mainRun env args).outcome = Outcome.dryRun
            ∨ (mainRun env args).outcome = Outcome.alreadyPresent
            ∨ (mainRun env args).outcome = Outcome.copied
         then 0 else 1) := by
  unfold mainRun
  repeat' split
  all_goals simp_all

end SshCopyId
